import Mathlib

/-!
Shallow embedding of `src/InstallDocuments/models.py` (a Django schema for a
facilities/ticketing application).  Each model class becomes a record type;
the database becomes a `DB` record holding one list per table; the write
operations induced by the declarations (inserts with the declared uniqueness
and foreign-key checks, deletes with the declared `on_delete` propagation,
and the overridden `User.save`) become functions `DB → ... → Except DBError DB`.

Conventions: `UUIDField` and `AutoField` primary keys, `DateTimeField`,
`DateField` and `TimeField` are modelled as `Nat`; `DurationField` as `Int`;
`EmailField`, `CharField`, `TextField` and `JSONField` payloads as `String`;
nullable columns as `Option`; a foreign key stores the primary key of the
referenced row.  `auto_now_add` / `auto_now` columns are filled from an
explicit `now : Nat` argument at write time.  `DailyAlertCount` is declared
`managed = False` (a read-only view, not a base table) and has no write
operations, so it does not appear in `DB`.
-/

namespace Schema

/-- Model of `class User(AbstractUser)` from models.py.  `username`, `first_name` and
`last_name` are removed (`= None`); the remaining columns are listed in
declaration order. -/
structure User where
  id : Nat
  email : String
  password : String
  is_staff : Bool
  is_superuser : Bool
  is_active : Bool
  date_joined : Nat
  last_login : Option Nat
  user_name : String
  user_alias : Option String
  user_preferred_color : Option String
  user_preferred_landing_page : Option String
  user_preferred_profile_picture : Option String
  user_preferred_light_or_dark_mode_mobile : String
  user_preferred_light_or_dark_mode_desktop : String
  user_preferred_enable_alerts : Option String
  user_preferred_enable_notifications : Option String
  user_is_admin : Bool
  user_is_manager : Bool
  user_is_email_verified : Bool
  user_preferred_timezone : String
  user_preferred_display_mode : Option String
  user_agreed_to_terms : Bool
  oauth_provider : Option String
  oauth_id : Option String
  created_at : Nat
  updated_at : Nat
deriving Repr, DecidableEq

/-- Model of `class EmailVerificationToken`: UUID pk, FK to User (`CASCADE`),
unique token, `created_at` (`auto_now_add`), `expires_at`. -/
structure EmailVerificationToken where
  id : Nat
  user : Nat
  token : String
  created_at : Nat
  expires_at : Nat
deriving Repr, DecidableEq

/-- Model of `class UserSession`: UUID pk, FK to User (`CASCADE`), unique token,
`issued_at` and `last_accessed_at` are `auto_now_add`. -/
structure UserSession where
  id : Nat
  user : Nat
  login_origin : String
  token : String
  issued_at : Nat
  expires_at : Nat
  last_accessed_at : Nat
  is_active : Bool
  device_info : Option String
  ip_address : Option String
deriving Repr, DecidableEq

/-- Model of `class LoginAttempt`: auto pk, nullable FK to User (`SET_NULL`),
`attempt_time` is `auto_now_add`. -/
structure LoginAttempt where
  id : Nat
  user : Option Nat
  email : Option String
  ip_address : String
  login_origin : Option String
  success : Bool
  attempt_time : Nat
deriving Repr, DecidableEq

/-- Model of `class Group`: auto pk, unique `group_name`. -/
structure Group where
  id : Nat
  group_name : String
deriving Repr, DecidableEq

/-- Model of `class UserGroup`: implicit auto pk, FKs to User and Group (both
`CASCADE`), `unique_together = (user, group)`. -/
structure UserGroup where
  id : Nat
  user : Nat
  group : Nat
deriving Repr, DecidableEq

/-- Model of `class Building`: auto pk, unique `building_uuid`. -/
structure Building where
  id : Nat
  building_uuid : Nat
  building_name : String
  description : Option String
deriving Repr, DecidableEq

/-- Model of `class Device`: auto pk, unique `device_uuid`, FK to Building
(`RESTRICT`), `unique_together = (building, device_name)`. -/
structure Device where
  id : Nat
  device_uuid : Nat
  building : Nat
  device_name : String
  device_type : Option String
  description : Option String
deriving Repr, DecidableEq

/-- Model of `class Ticket`: auto pk, unique `ticket_number`, `created_at`
(`auto_now_add`). -/
structure Ticket where
  id : Nat
  ticket_number : String
  created_at : Nat
deriving Repr, DecidableEq

/-- Model of `class TicketEntry`: auto pk, FK to User (`CASCADE`), FK to Ticket
(`CASCADE`); `job_start_date`, `job_start_time`, `created_at` are
`auto_now_add`, `updated_at` is `auto_now`. -/
structure TicketEntry where
  id : Nat
  user : Nat
  ticket : Nat
  job_name : String
  job_start_date : Nat
  job_start_time : Nat
  job_end_time : Option Nat
  job_duration : Option Int
  job_materials_needed : Option String
  job_access_needed : Option String
  job_programming_changes : Option String
  job_followup_required : Bool
  created_at : Nat
  updated_at : Nat
deriving Repr, DecidableEq

/-- Model of `class TicketMiscEntry`: auto pk, FK to User (`CASCADE`);
`misc_start_date`, `misc_start_time`, `created_at` are `auto_now_add`,
`updated_at` is `auto_now`. -/
structure TicketMiscEntry where
  id : Nat
  user : Nat
  misc_name : String
  misc_start_date : Nat
  misc_start_time : Nat
  misc_end_time : Option Nat
  misc_duration : Option Int
  misc_details : Option String
  created_at : Nat
  updated_at : Nat
deriving Repr, DecidableEq

/-- Model of `class TicketEntryDevice`: implicit auto pk, FK to TicketEntry
(`CASCADE`), FK to Device (`RESTRICT`), `unique_together = (entry, device)`. -/
structure TicketEntryDevice where
  id : Nat
  entry : Nat
  device : Nat
deriving Repr, DecidableEq

/-- Model of `class Notification`: auto pk, nullable FKs to User and Group (both
`SET_NULL`), `created_at` (`auto_now_add`). -/
structure Notification where
  id : Nat
  user : Option Nat
  group : Option Nat
  title : String
  message : String
  created_at : Nat
deriving Repr, DecidableEq

/-- Model of `class Alert`: auto pk, nullable FKs to User, Group and TicketEntry
(all `SET_NULL`), `created_at` (`auto_now_add`). -/
structure Alert where
  id : Nat
  user : Option Nat
  group : Option Nat
  entry : Option Nat
  alert_type : String
  severity : String
  message : String
  is_resolved : Bool
  resolved_at : Option Nat
  created_at : Nat
deriving Repr, DecidableEq

/-- Model of `class History`: auto pk, FK to User (`CASCADE`), `created_at`
(`auto_now_add`). -/
structure History where
  id : Nat
  table_name : String
  record_id : Int
  action : String
  user : Nat
  changes : Option String
  created_at : Nat
deriving Repr, DecidableEq

/-- The database: one list of rows per managed table of the schema. -/
structure DB where
  users : List User
  email_verification_tokens : List EmailVerificationToken
  user_sessions : List UserSession
  login_attempts : List LoginAttempt
  groups : List Group
  user_groups : List UserGroup
  buildings : List Building
  devices : List Device
  tickets : List Ticket
  ticket_entries : List TicketEntry
  ticket_misc_entries : List TicketMiscEntry
  ticket_entry_devices : List TicketEntryDevice
  notifications : List Notification
  alerts : List Alert
  history : List History
deriving Repr, DecidableEq

/-- The single error of this layer: a uniqueness or foreign-key
(including `RESTRICT`) violation, surfaced to the caller. -/
inductive DBError where
  | ConstraintViolation : DBError
deriving Repr, DecidableEq

/-- Fresh value for an `AutoField` primary key: one past the largest id in
use, as a database sequence would provide. -/
def nextId (ids : List Nat) : Nat :=
  ids.foldr (fun a b => max a b) 0 + 1

/-- The `save` override of `class User` (models.py lines 43-46): before the
underlying write, `is_superuser` is forced to `user_is_admin` and `is_staff`
to `user_is_manager or user_is_admin`. -/
def User.save (self : User) : User :=
  { self with
    is_superuser := self.user_is_admin
    is_staff := self.user_is_manager || self.user_is_admin }

/-- Persisting a User: the `save` override runs first, then the underlying
insert-or-update with the declared checks (`id` is the primary key, `email`
is unique).  On insert the `auto_now_add` columns `date_joined` and
`created_at` and the `auto_now` column `updated_at` are set to `now`; on
update only `updated_at` is. -/
def saveUser (db : DB) (now : Nat) (u0 : User) : Except DBError DB :=
  let u := User.save u0
  if db.users.any (fun v => v.id = u.id) then
    if db.users.any (fun v => v.id ≠ u.id ∧ v.email = u.email) then
      Except.error DBError.ConstraintViolation
    else
      Except.ok { db with
        users := db.users.map (fun v =>
          if v.id = u.id then { u with updated_at := now } else v) }
  else
    if db.users.any (fun v => v.email = u.email) then
      Except.error DBError.ConstraintViolation
    else
      Except.ok { db with
        users := { u with date_joined := now, created_at := now,
                          updated_at := now } :: db.users }

/-- Write-time transform of EmailVerificationToken: `created_at` is
`auto_now_add`. -/
def evtPreInsert (now : Nat) (t : EmailVerificationToken) : EmailVerificationToken :=
  { t with created_at := now }

/-- Insert an EmailVerificationToken: `user` must reference an existing
User, `id` (pk) and `token` are unique. -/
def insertEVT (db : DB) (now : Nat) (t : EmailVerificationToken) : Except DBError DB :=
  if (db.users.any (fun v => v.id = t.user))
      ∧ ¬ (db.email_verification_tokens.any (fun t0 => t0.id = t.id))
      ∧ ¬ (db.email_verification_tokens.any (fun t0 => t0.token = t.token)) then
    Except.ok { db with
      email_verification_tokens := evtPreInsert now t :: db.email_verification_tokens }
  else Except.error DBError.ConstraintViolation

/-- Write-time transform of UserSession: `issued_at` and `last_accessed_at`
are `auto_now_add`. -/
def sessionPreInsert (now : Nat) (s : UserSession) : UserSession :=
  { s with issued_at := now, last_accessed_at := now }

/-- Insert a UserSession: `user` must reference an existing User, `id` (pk)
and `token` are unique. -/
def insertSession (db : DB) (now : Nat) (s : UserSession) : Except DBError DB :=
  if (db.users.any (fun v => v.id = s.user))
      ∧ ¬ (db.user_sessions.any (fun s0 => s0.id = s.id))
      ∧ ¬ (db.user_sessions.any (fun s0 => s0.token = s.token)) then
    Except.ok { db with user_sessions := sessionPreInsert now s :: db.user_sessions }
  else Except.error DBError.ConstraintViolation

/-- Write-time transform of LoginAttempt: `attempt_time` is `auto_now_add`. -/
def loginAttemptPreInsert (now : Nat) (a : LoginAttempt) : LoginAttempt :=
  { a with attempt_time := now }

/-- Insert a LoginAttempt: the nullable `user` must reference an existing
User when set; the pk is auto-assigned. -/
def insertLoginAttempt (db : DB) (now : Nat) (a : LoginAttempt) : Except DBError DB :=
  if (a.user.all (fun uid => db.users.any (fun v => v.id = uid))) then
    Except.ok { db with
      login_attempts :=
        { loginAttemptPreInsert now a with
          id := nextId (db.login_attempts.map (fun a0 => a0.id)) } :: db.login_attempts }
  else Except.error DBError.ConstraintViolation

/-- Insert a Group: `group_name` is unique; the pk is auto-assigned. -/
def insertGroup (db : DB) (g : Group) : Except DBError DB :=
  if ¬ (db.groups.any (fun g0 => g0.group_name = g.group_name)) then
    Except.ok { db with
      groups := { g with id := nextId (db.groups.map (fun g0 => g0.id)) } :: db.groups }
  else Except.error DBError.ConstraintViolation

/-- Insert a UserGroup: both foreign keys must exist and the pair
`(user, group)` is `unique_together`; the pk is auto-assigned. -/
def insertUserGroup (db : DB) (ug : UserGroup) : Except DBError DB :=
  if (db.users.any (fun v => v.id = ug.user))
      ∧ (db.groups.any (fun g0 => g0.id = ug.group))
      ∧ ¬ (db.user_groups.any (fun x => x.user = ug.user ∧ x.group = ug.group)) then
    Except.ok { db with
      user_groups :=
        { ug with id := nextId (db.user_groups.map (fun x => x.id)) } :: db.user_groups }
  else Except.error DBError.ConstraintViolation

/-- Insert a Building: `building_uuid` is unique; the pk is auto-assigned. -/
def insertBuilding (db : DB) (b : Building) : Except DBError DB :=
  if ¬ (db.buildings.any (fun b0 => b0.building_uuid = b.building_uuid)) then
    Except.ok { db with
      buildings :=
        { b with id := nextId (db.buildings.map (fun b0 => b0.id)) } :: db.buildings }
  else Except.error DBError.ConstraintViolation

/-- Insert a Device: `building` must reference an existing Building,
`device_uuid` is unique and the pair `(building, device_name)` is
`unique_together`; the pk is auto-assigned. -/
def insertDevice (db : DB) (d : Device) : Except DBError DB :=
  if (db.buildings.any (fun b0 => b0.id = d.building))
      ∧ ¬ (db.devices.any (fun d0 => d0.device_uuid = d.device_uuid))
      ∧ ¬ (db.devices.any (fun d0 =>
            d0.building = d.building ∧ d0.device_name = d.device_name)) then
    Except.ok { db with
      devices := { d with id := nextId (db.devices.map (fun d0 => d0.id)) } :: db.devices }
  else Except.error DBError.ConstraintViolation

/-- Write-time transform of Ticket: `created_at` is `auto_now_add`. -/
def ticketPreInsert (now : Nat) (t : Ticket) : Ticket :=
  { t with created_at := now }

/-- Insert a Ticket: `ticket_number` is unique; the pk is auto-assigned. -/
def insertTicket (db : DB) (now : Nat) (t : Ticket) : Except DBError DB :=
  if ¬ (db.tickets.any (fun t0 => t0.ticket_number = t.ticket_number)) then
    Except.ok { db with
      tickets :=
        { ticketPreInsert now t with
          id := nextId (db.tickets.map (fun t0 => t0.id)) } :: db.tickets }
  else Except.error DBError.ConstraintViolation

/-- Write-time transform of TicketEntry: `job_start_date`, `job_start_time`
and `created_at` are `auto_now_add`, `updated_at` is `auto_now`. -/
def ticketEntryPreInsert (now : Nat) (e : TicketEntry) : TicketEntry :=
  { e with job_start_date := now, job_start_time := now,
           created_at := now, updated_at := now }

/-- Insert a TicketEntry: `user` and `ticket` must reference existing rows;
the pk is auto-assigned. -/
def insertTicketEntry (db : DB) (now : Nat) (e : TicketEntry) : Except DBError DB :=
  if (db.users.any (fun v => v.id = e.user))
      ∧ (db.tickets.any (fun t0 => t0.id = e.ticket)) then
    Except.ok { db with
      ticket_entries :=
        { ticketEntryPreInsert now e with
          id := nextId (db.ticket_entries.map (fun e0 => e0.id)) } :: db.ticket_entries }
  else Except.error DBError.ConstraintViolation

/-- Write-time transform of TicketMiscEntry: `misc_start_date`,
`misc_start_time` and `created_at` are `auto_now_add`, `updated_at` is
`auto_now`. -/
def ticketMiscEntryPreInsert (now : Nat) (m : TicketMiscEntry) : TicketMiscEntry :=
  { m with misc_start_date := now, misc_start_time := now,
           created_at := now, updated_at := now }

/-- Insert a TicketMiscEntry: `user` must reference an existing User; the
pk is auto-assigned. -/
def insertTicketMiscEntry (db : DB) (now : Nat) (m : TicketMiscEntry) : Except DBError DB :=
  if (db.users.any (fun v => v.id = m.user)) then
    Except.ok { db with
      ticket_misc_entries :=
        { ticketMiscEntryPreInsert now m with
          id := nextId (db.ticket_misc_entries.map (fun m0 => m0.id)) }
          :: db.ticket_misc_entries }
  else Except.error DBError.ConstraintViolation

/-- Insert a TicketEntryDevice: both foreign keys must exist and the pair
`(entry, device)` is `unique_together`; the pk is auto-assigned. -/
def insertTicketEntryDevice (db : DB) (ed : TicketEntryDevice) : Except DBError DB :=
  if (db.ticket_entries.any (fun e0 => e0.id = ed.entry))
      ∧ (db.devices.any (fun d0 => d0.id = ed.device))
      ∧ ¬ (db.ticket_entry_devices.any (fun x =>
            x.entry = ed.entry ∧ x.device = ed.device)) then
    Except.ok { db with
      ticket_entry_devices :=
        { ed with id := nextId (db.ticket_entry_devices.map (fun x => x.id)) }
          :: db.ticket_entry_devices }
  else Except.error DBError.ConstraintViolation

/-- Write-time transform of Notification: `created_at` is `auto_now_add`. -/
def notificationPreInsert (now : Nat) (n : Notification) : Notification :=
  { n with created_at := now }

/-- Insert a Notification: the nullable `user` and `group` must reference
existing rows when set; the pk is auto-assigned. -/
def insertNotification (db : DB) (now : Nat) (n : Notification) : Except DBError DB :=
  if (n.user.all (fun uid => db.users.any (fun v => v.id = uid)))
      ∧ (n.group.all (fun gid => db.groups.any (fun g0 => g0.id = gid))) then
    Except.ok { db with
      notifications :=
        { notificationPreInsert now n with
          id := nextId (db.notifications.map (fun n0 => n0.id)) } :: db.notifications }
  else Except.error DBError.ConstraintViolation

/-- Write-time transform of Alert: `created_at` is `auto_now_add`. -/
def alertPreInsert (now : Nat) (a : Alert) : Alert :=
  { a with created_at := now }

/-- Insert an Alert: the nullable `user`, `group` and `entry` must reference
existing rows when set; the pk is auto-assigned. -/
def insertAlert (db : DB) (now : Nat) (a : Alert) : Except DBError DB :=
  if (a.user.all (fun uid => db.users.any (fun v => v.id = uid)))
      ∧ (a.group.all (fun gid => db.groups.any (fun g0 => g0.id = gid)))
      ∧ (a.entry.all (fun eid => db.ticket_entries.any (fun e0 => e0.id = eid))) then
    Except.ok { db with
      alerts := { alertPreInsert now a with
                  id := nextId (db.alerts.map (fun a0 => a0.id)) } :: db.alerts }
  else Except.error DBError.ConstraintViolation

/-- Write-time transform of History: `created_at` is `auto_now_add`. -/
def historyPreInsert (now : Nat) (h : History) : History :=
  { h with created_at := now }

/-- Insert a History row: `user` must reference an existing User; the pk is
auto-assigned. -/
def insertHistory (db : DB) (now : Nat) (h : History) : Except DBError DB :=
  if (db.users.any (fun v => v.id = h.user)) then
    Except.ok { db with
      history := { historyPreInsert now h with
                   id := nextId (db.history.map (fun h0 => h0.id)) } :: db.history }
  else Except.error DBError.ConstraintViolation

/-- Delete a User.  Declared propagation: `CASCADE` to
EmailVerificationToken, UserSession, UserGroup, TicketEntry,
TicketMiscEntry and History; `SET_NULL` on LoginAttempt.user,
Notification.user and Alert.user.  Cascading a TicketEntry in turn
cascades its TicketEntryDevice rows (`CASCADE` on entry) and nulls
Alert.entry (`SET_NULL`).  No `RESTRICT` edge is reachable from User, so
the delete always succeeds. -/
def deleteUser (db : DB) (uid : Nat) : DB :=
  let gone := db.ticket_entries.filter (fun e => e.user = uid)
  { db with
    users := db.users.filter (fun v => v.id ≠ uid)
    email_verification_tokens :=
      db.email_verification_tokens.filter (fun t => t.user ≠ uid)
    user_sessions := db.user_sessions.filter (fun s => s.user ≠ uid)
    login_attempts := db.login_attempts.map (fun a =>
      if a.user = some uid then { a with user := none } else a)
    user_groups := db.user_groups.filter (fun x => x.user ≠ uid)
    ticket_entries := db.ticket_entries.filter (fun e => e.user ≠ uid)
    ticket_misc_entries := db.ticket_misc_entries.filter (fun m => m.user ≠ uid)
    ticket_entry_devices := db.ticket_entry_devices.filter (fun x =>
      ¬ gone.any (fun e => e.id = x.entry))
    notifications := db.notifications.map (fun n =>
      if n.user = some uid then { n with user := none } else n)
    alerts := db.alerts.map (fun a =>
      let a1 := if a.user = some uid then { a with user := none } else a
      if a1.entry.any (fun eid => gone.any (fun e => e.id = eid)) then
        { a1 with entry := none }
      else a1)
    history := db.history.filter (fun h => h.user ≠ uid) }

/-- Delete a Group: `CASCADE` to UserGroup, `SET_NULL` on
Notification.group and Alert.group. -/
def deleteGroup (db : DB) (gid : Nat) : DB :=
  { db with
    groups := db.groups.filter (fun g => g.id ≠ gid)
    user_groups := db.user_groups.filter (fun x => x.group ≠ gid)
    notifications := db.notifications.map (fun n =>
      if n.group = some gid then { n with group := none } else n)
    alerts := db.alerts.map (fun a =>
      if a.group = some gid then { a with group := none } else a) }

/-- Delete a Building: Device.building is `on_delete=RESTRICT`, so the
delete is rejected while any Device references the building. -/
def deleteBuilding (db : DB) (bid : Nat) : Except DBError DB :=
  if db.devices.any (fun d => d.building = bid) then
    Except.error DBError.ConstraintViolation
  else
    Except.ok { db with buildings := db.buildings.filter (fun b => b.id ≠ bid) }

/-- Delete a Device: TicketEntryDevice.device is `on_delete=RESTRICT`, so
the delete is rejected while any TicketEntryDevice references the device. -/
def deleteDevice (db : DB) (did : Nat) : Except DBError DB :=
  if db.ticket_entry_devices.any (fun x => x.device = did) then
    Except.error DBError.ConstraintViolation
  else
    Except.ok { db with devices := db.devices.filter (fun d => d.id ≠ did) }

/-- Delete a Ticket: `CASCADE` to TicketEntry, which in turn cascades
TicketEntryDevice and nulls Alert.entry. -/
def deleteTicket (db : DB) (tid : Nat) : DB :=
  let gone := db.ticket_entries.filter (fun e => e.ticket = tid)
  { db with
    tickets := db.tickets.filter (fun t => t.id ≠ tid)
    ticket_entries := db.ticket_entries.filter (fun e => e.ticket ≠ tid)
    ticket_entry_devices := db.ticket_entry_devices.filter (fun x =>
      ¬ gone.any (fun e => e.id = x.entry))
    alerts := db.alerts.map (fun a =>
      if a.entry.any (fun eid => gone.any (fun e => e.id = eid)) then
        { a with entry := none }
      else a) }

/-- Delete a TicketEntry: `CASCADE` to TicketEntryDevice, `SET_NULL` on
Alert.entry. -/
def deleteTicketEntry (db : DB) (eid : Nat) : DB :=
  { db with
    ticket_entries := db.ticket_entries.filter (fun e => e.id ≠ eid)
    ticket_entry_devices := db.ticket_entry_devices.filter (fun x => x.entry ≠ eid)
    alerts := db.alerts.map (fun a =>
      if a.entry = some eid then { a with entry := none } else a) }

/-- Delete an EmailVerificationToken (no dependents). -/
def deleteEVT (db : DB) (tid : Nat) : DB :=
  { db with email_verification_tokens :=
      db.email_verification_tokens.filter (fun t => t.id ≠ tid) }

/-- Delete a UserSession (no dependents). -/
def deleteSession (db : DB) (sid : Nat) : DB :=
  { db with user_sessions := db.user_sessions.filter (fun s => s.id ≠ sid) }

/-- Delete a LoginAttempt (no dependents). -/
def deleteLoginAttempt (db : DB) (aid : Nat) : DB :=
  { db with login_attempts := db.login_attempts.filter (fun a => a.id ≠ aid) }

/-- Delete a UserGroup row (no dependents). -/
def deleteUserGroup (db : DB) (xid : Nat) : DB :=
  { db with user_groups := db.user_groups.filter (fun x => x.id ≠ xid) }

/-- Delete a TicketMiscEntry (no dependents). -/
def deleteTicketMiscEntry (db : DB) (mid : Nat) : DB :=
  { db with ticket_misc_entries :=
      db.ticket_misc_entries.filter (fun m => m.id ≠ mid) }

/-- Delete a TicketEntryDevice row (no dependents). -/
def deleteTicketEntryDevice (db : DB) (xid : Nat) : DB :=
  { db with ticket_entry_devices :=
      db.ticket_entry_devices.filter (fun x => x.id ≠ xid) }

/-- Delete a Notification (no dependents). -/
def deleteNotification (db : DB) (nid : Nat) : DB :=
  { db with notifications := db.notifications.filter (fun n => n.id ≠ nid) }

/-- Delete an Alert (no dependents). -/
def deleteAlert (db : DB) (aid : Nat) : DB :=
  { db with alerts := db.alerts.filter (fun a => a.id ≠ aid) }

/-- Delete a History row (no dependents). -/
def deleteHistory (db : DB) (hid : Nat) : DB :=
  { db with history := db.history.filter (fun h => h.id ≠ hid) }

/-- The write operations this schema layer induces: one save/insert per
managed table and one delete per managed table (with the declared
`on_delete` propagation).  The schema defines no further operations. -/
inductive Op where
  | saveUser (now : Nat) (u : User)
  | insertEVT (now : Nat) (t : EmailVerificationToken)
  | insertSession (now : Nat) (s : UserSession)
  | insertLoginAttempt (now : Nat) (a : LoginAttempt)
  | insertGroup (g : Group)
  | insertUserGroup (ug : UserGroup)
  | insertBuilding (b : Building)
  | insertDevice (d : Device)
  | insertTicket (now : Nat) (t : Ticket)
  | insertTicketEntry (now : Nat) (e : TicketEntry)
  | insertTicketMiscEntry (now : Nat) (m : TicketMiscEntry)
  | insertTicketEntryDevice (ed : TicketEntryDevice)
  | insertNotification (now : Nat) (n : Notification)
  | insertAlert (now : Nat) (a : Alert)
  | insertHistory (now : Nat) (h : History)
  | deleteUser (uid : Nat)
  | deleteGroup (gid : Nat)
  | deleteBuilding (bid : Nat)
  | deleteDevice (did : Nat)
  | deleteTicket (tid : Nat)
  | deleteTicketEntry (eid : Nat)
  | deleteEVT (tid : Nat)
  | deleteSession (sid : Nat)
  | deleteLoginAttempt (aid : Nat)
  | deleteUserGroup (xid : Nat)
  | deleteTicketMiscEntry (mid : Nat)
  | deleteTicketEntryDevice (xid : Nat)
  | deleteNotification (nid : Nat)
  | deleteAlert (aid : Nat)
  | deleteHistory (hid : Nat)
deriving Repr, DecidableEq

/-- Apply one schema operation to the database.  A `ConstraintViolation`
leaves no trace: the state is only replaced on `Except.ok`. -/
def applyOp (op : Op) (db : DB) : Except DBError DB :=
  match op with
  | .saveUser now u => saveUser db now u
  | .insertEVT now t => insertEVT db now t
  | .insertSession now s => insertSession db now s
  | .insertLoginAttempt now a => insertLoginAttempt db now a
  | .insertGroup g => insertGroup db g
  | .insertUserGroup ug => insertUserGroup db ug
  | .insertBuilding b => insertBuilding db b
  | .insertDevice d => insertDevice db d
  | .insertTicket now t => insertTicket db now t
  | .insertTicketEntry now e => insertTicketEntry db now e
  | .insertTicketMiscEntry now m => insertTicketMiscEntry db now m
  | .insertTicketEntryDevice ed => insertTicketEntryDevice db ed
  | .insertNotification now n => insertNotification db now n
  | .insertAlert now a => insertAlert db now a
  | .insertHistory now h => insertHistory db now h
  | .deleteUser uid => Except.ok (deleteUser db uid)
  | .deleteGroup gid => Except.ok (deleteGroup db gid)
  | .deleteBuilding bid => deleteBuilding db bid
  | .deleteDevice did => deleteDevice db did
  | .deleteTicket tid => Except.ok (deleteTicket db tid)
  | .deleteTicketEntry eid => Except.ok (deleteTicketEntry db eid)
  | .deleteEVT tid => Except.ok (deleteEVT db tid)
  | .deleteSession sid => Except.ok (deleteSession db sid)
  | .deleteLoginAttempt aid => Except.ok (deleteLoginAttempt db aid)
  | .deleteUserGroup xid => Except.ok (deleteUserGroup db xid)
  | .deleteTicketMiscEntry mid => Except.ok (deleteTicketMiscEntry db mid)
  | .deleteTicketEntryDevice xid => Except.ok (deleteTicketEntryDevice db xid)
  | .deleteNotification nid => Except.ok (deleteNotification db nid)
  | .deleteAlert aid => Except.ok (deleteAlert db aid)
  | .deleteHistory hid => Except.ok (deleteHistory db hid)

/-! Concrete fixtures used to instantiate the theorems below. -/

/-- The empty database. -/
def emptyDB : DB := ⟨[], [], [], [], [], [], [], [], [], [], [], [], [], [], []⟩

/-- A User as a caller would construct it: required columns set, the
remaining columns at their declared defaults. -/
def mkUser (uid : Nat) (em : String) (admin manager : Bool) : User :=
  { id := uid, email := em, password := "pw", is_staff := false,
    is_superuser := false, is_active := true, date_joined := 0,
    last_login := none, user_name := "u", user_alias := none,
    user_preferred_color := none, user_preferred_landing_page := none,
    user_preferred_profile_picture := none,
    user_preferred_light_or_dark_mode_mobile := "dark",
    user_preferred_light_or_dark_mode_desktop := "light",
    user_preferred_enable_alerts := none,
    user_preferred_enable_notifications := none,
    user_is_admin := admin, user_is_manager := manager,
    user_is_email_verified := false,
    user_preferred_timezone := "America/Los_Angeles",
    user_preferred_display_mode := none, user_agreed_to_terms := false,
    oauth_provider := none, oauth_id := none, created_at := 0,
    updated_at := 0 }

/-- The manager of the spec's end-to-end example:
`email = a@x.com`, `is_admin = false`, `is_manager = true`. -/
def uA : User := mkUser 1 "a@x.com" false true

/-- A second User sharing `uA`'s email. -/
def uB : User := mkUser 2 "a@x.com" false false

/-- A second User with a distinct email. -/
def uC : User := mkUser 2 "b@x.com" true false

/-- The row `saveUser emptyDB 5 uA` writes. -/
def uAStored : User :=
  { User.save uA with date_joined := 5, created_at := 5, updated_at := 5 }

/-- The row `saveUser _ 6 uC` writes on insert. -/
def uCStored : User :=
  { User.save uC with date_joined := 6, created_at := 6, updated_at := 6 }

/-- The database after saving `uA` into `emptyDB` at time 5. -/
def dbOneUser : DB := { emptyDB with users := [uAStored] }

/-- Two buildings, with one device named `x` in building 1. -/
def dbDevices : DB :=
  { emptyDB with
    buildings := [⟨1, 11, "B1", none⟩, ⟨2, 22, "B2", none⟩]
    devices := [⟨1, 101, 1, "x", none, none⟩] }

/-- A device colliding with `(building 1, name x)`. -/
def devDup : Device := ⟨0, 102, 1, "x", none, none⟩

/-- A device named `x` under building 2. -/
def devOther : Device := ⟨0, 103, 2, "x", none, none⟩

/-- Two users, two groups, and the membership `(user 1, group 1)`. -/
def dbGroups : DB :=
  { emptyDB with
    users := [uAStored, uCStored]
    groups := [⟨1, "g1"⟩, ⟨2, "g2"⟩]
    user_groups := [⟨1, 1, 1⟩] }

/-- A membership duplicating `(user 1, group 1)`. -/
def ugDup : UserGroup := ⟨0, 1, 1⟩

/-- A membership of user 1 in the other group. -/
def ugNew : UserGroup := ⟨0, 1, 2⟩

/-- A populated database: users 1 and 2 each own a verification token, a
session, a group membership, a ticket entry, a misc entry and a history
row; user 1 also has a login attempt and a notification. -/
def dbFull : DB :=
  { emptyDB with
    users := [uAStored, uCStored]
    email_verification_tokens := [⟨1, 1, "tok1", 0, 9⟩, ⟨2, 2, "tok2", 0, 9⟩]
    user_sessions :=
      [⟨1, 1, "web", "sess1", 0, 9, 0, true, none, none⟩,
       ⟨2, 2, "web", "sess2", 0, 9, 0, true, none, none⟩]
    login_attempts := [⟨1, some 1, some "a@x.com", "ip", none, true, 0⟩]
    groups := [⟨1, "g1"⟩]
    user_groups := [⟨1, 1, 1⟩, ⟨2, 2, 1⟩]
    tickets := [⟨1, "T-1001", 0⟩]
    ticket_entries :=
      [⟨1, 1, 1, "job1", 0, 0, none, none, none, none, none, false, 0, 0⟩,
       ⟨2, 2, 1, "job2", 0, 0, none, none, none, none, none, false, 0, 0⟩]
    ticket_misc_entries :=
      [⟨1, 1, "misc1", 0, 0, none, none, none, 0, 0⟩,
       ⟨2, 2, "misc2", 0, 0, none, none, none, 0, 0⟩]
    notifications :=
      [⟨1, some 1, none, "t1", "m1", 0⟩, ⟨2, none, some 1, "t2", "m2", 0⟩]
    history :=
      [⟨1, "users", 1, "update", 1, none, 0⟩,
       ⟨2, "users", 2, "update", 2, none, 0⟩] }

/-- One user and one ticket, ready to receive a TicketEntry. -/
def dbTicket : DB :=
  { emptyDB with users := [uAStored], tickets := [⟨1, "T-1001", 0⟩] }

/-- A caller-built TicketEntry whose `created_at` is 0. -/
def entC8 : TicketEntry :=
  ⟨0, 1, 1, "job", 0, 0, none, none, none, none, none, false, 0, 0⟩

/-! Helper lemmas. -/

/-- A successful `saveUser` leaves a row carrying the saved email. -/
theorem saveUser_writes_email {db db' : DB} {now : Nat} {u : User}
    (h : saveUser db now u = Except.ok db') :
    ∃ v ∈ db'.users, v.email = u.email := by
  simp only [saveUser] at h
  split at h
  case isTrue hid =>
    split at h
    case isTrue => simp at h
    case isFalse =>
      simp only [Except.ok.injEq] at h
      subst h
      simp only [List.any_eq_true, decide_eq_true_eq] at hid
      obtain ⟨v0, hv0, hvid⟩ := hid
      refine ⟨{ User.save u with updated_at := now }, ?_, rfl⟩
      simp only [List.mem_map]
      exact ⟨v0, hv0, by simp [hvid]⟩
  case isFalse =>
    split at h
    case isTrue => simp at h
    case isFalse =>
      simp only [Except.ok.injEq] at h
      subst h
      exact ⟨_, List.mem_cons_self _ _, rfl⟩

/-- C1: after any save of a User — insert or update, whatever the two
derived fields held before — the stored record satisfies
`is_superuser = user_is_admin` and
`is_staff = (user_is_manager || user_is_admin)`: the `save` override
forces both before the underlying write, and no pre-existing row is
touched otherwise. -/
theorem save_forces_derived_flags (db db' : DB) (now : Nat) (u : User)
    (h : saveUser db now u = Except.ok db') :
    (∃ v ∈ db'.users, v.id = u.id ∧ v.is_superuser = u.user_is_admin ∧
        v.is_staff = (u.user_is_manager || u.user_is_admin)) ∧
    ∀ v ∈ db'.users, v ∈ db.users ∨ (v.is_superuser = u.user_is_admin ∧
        v.is_staff = (u.user_is_manager || u.user_is_admin)) := by
  simp only [saveUser] at h
  split at h
  case isTrue hid =>
    split at h
    case isTrue => simp at h
    case isFalse =>
      simp only [Except.ok.injEq] at h
      subst h
      simp only [List.any_eq_true, decide_eq_true_eq] at hid
      obtain ⟨v0, hv0, hvid⟩ := hid
      constructor
      · refine ⟨{ User.save u with updated_at := now }, ?_, rfl, rfl, rfl⟩
        simp only [List.mem_map]
        exact ⟨v0, hv0, by simp [hvid]⟩
      · intro v hv
        simp only [List.mem_map] at hv
        obtain ⟨w, hw, hweq⟩ := hv
        by_cases hwc : w.id = (User.save u).id
        · right
          rw [← hweq]
          simp [hwc, User.save]
        · left
          rw [← hweq]
          simpa [hwc] using hw
  case isFalse =>
    split at h
    case isTrue => simp at h
    case isFalse =>
      simp only [Except.ok.injEq] at h
      subst h
      constructor
      · exact ⟨_, List.mem_cons_self _ _, rfl, rfl, rfl⟩
      · intro v hv
        rcases List.mem_cons.mp hv with hv | hv
        · right
          rw [hv]
          exact ⟨rfl, rfl⟩
        · exact Or.inl hv

/-- Witness for C1: saving the spec's example user
(`a@x.com`, admin = false, manager = true) into the empty database. -/
theorem save_forces_derived_flags_witness :
    (∃ v ∈ dbOneUser.users, v.id = uA.id ∧ v.is_superuser = uA.user_is_admin ∧
        v.is_staff = (uA.user_is_manager || uA.user_is_admin)) ∧
    ∀ v ∈ dbOneUser.users, v ∈ emptyDB.users ∨
      (v.is_superuser = uA.user_is_admin ∧
        v.is_staff = (uA.user_is_manager || uA.user_is_admin)) :=
  save_forces_derived_flags emptyDB dbOneUser 5 uA (by rfl)

/-- C2: once a save has stored a User with some email, a second insertion
(a save whose id is not yet present) carrying the same email fails with
`ConstraintViolation`; the error is returned to the caller, nothing is
silently corrected. -/
theorem duplicate_email_insert_fails (db db1 : DB) (now1 now2 : Nat)
    (u1 u2 : User)
    (hsave : saveUser db now1 u1 = Except.ok db1)
    (hemail : u2.email = u1.email)
    (hfresh : ∀ v ∈ db1.users, v.id ≠ u2.id) :
    saveUser db1 now2 u2 = Except.error DBError.ConstraintViolation := by
  obtain ⟨v1, hv1, hv1email⟩ := saveUser_writes_email hsave
  simp only [saveUser]
  split
  case isTrue hid =>
    simp only [List.any_eq_true, decide_eq_true_eq] at hid
    obtain ⟨v, hv, hvid⟩ := hid
    exact absurd hvid (hfresh v hv)
  case isFalse =>
    split
    case isTrue => rfl
    case isFalse hdup =>
      exfalso
      simp only [List.any_eq_true, decide_eq_true_eq] at hdup
      exact hdup ⟨v1, hv1, by simp [User.save, hv1email, hemail]⟩

/-- Witness for C2: saving `uB` (same email as `uA`, fresh id) after `uA`
fails. -/
theorem duplicate_email_insert_fails_witness :
    saveUser dbOneUser 6 uB = Except.error DBError.ConstraintViolation :=
  duplicate_email_insert_fails emptyDB dbOneUser 5 6 uA uB (by rfl)
    (by rfl) (by decide)

/-- C3: inserting a Device whose `(building, device_name)` pair is already
taken fails with `ConstraintViolation`; with the pair free (and the
building existing, the uuid fresh) the insert succeeds and stores the
device under its building. -/
theorem device_unique_per_building (db : DB) (d : Device) :
    ((∃ d0 ∈ db.devices, d0.building = d.building ∧
        d0.device_name = d.device_name) →
      insertDevice db d = Except.error DBError.ConstraintViolation) ∧
    ((∃ b0 ∈ db.buildings, b0.id = d.building) →
      (∀ d0 ∈ db.devices, d0.device_uuid ≠ d.device_uuid) →
      (∀ d0 ∈ db.devices, d0.building = d.building →
        d0.device_name ≠ d.device_name) →
      ∃ db', insertDevice db d = Except.ok db' ∧
        ∃ d1 ∈ db'.devices, d1.building = d.building ∧
          d1.device_name = d.device_name) := by
  constructor
  · rintro ⟨d0, hd0, hb, hn⟩
    simp only [insertDevice]
    split
    case isTrue hc =>
      exact absurd
        (by simp only [List.any_eq_true, decide_eq_true_eq]
            exact ⟨d0, hd0, hb, hn⟩) hc.2.2
    case isFalse => rfl
  · rintro ⟨b0, hb0, hbid⟩ huuid hname
    simp only [insertDevice]
    split
    case isTrue =>
      exact ⟨_, rfl, _, List.mem_cons_self _ _, rfl, rfl⟩
    case isFalse hc =>
      exfalso
      apply hc
      refine ⟨?_, ?_, ?_⟩
      · simp only [List.any_eq_true, decide_eq_true_eq]
        exact ⟨b0, hb0, hbid⟩
      · simp only [List.any_eq_true, decide_eq_true_eq, not_exists]
        rintro d0 ⟨hd0, he⟩
        exact huuid d0 hd0 he
      · simp only [List.any_eq_true, decide_eq_true_eq, not_exists]
        rintro d0 ⟨hd0, hb, hn⟩
        exact hname d0 hd0 hb hn

/-- Witness for C3: with buildings 1 and 2 and device `(1, x)` present,
inserting another `(1, x)` fails while inserting `(2, x)` succeeds. -/
theorem device_unique_per_building_witness :
    insertDevice dbDevices devDup = Except.error DBError.ConstraintViolation ∧
    ∃ db', insertDevice dbDevices devOther = Except.ok db' ∧
      ∃ d1 ∈ db'.devices, d1.building = devOther.building ∧
        d1.device_name = devOther.device_name :=
  ⟨(device_unique_per_building dbDevices devDup).1
      ⟨⟨1, 101, 1, "x", none, none⟩, by decide, by decide⟩,
   (device_unique_per_building dbDevices devOther).2
      ⟨⟨2, 22, "B2", none⟩, by decide, by decide⟩ (by decide) (by decide)⟩

/-- C4: `Device.building` is `on_delete=RESTRICT`, so deleting a Building
still referenced by a Device is rejected with `ConstraintViolation`; the
caller's state is returned unchanged (an `Except.error` carries no new
state). -/
theorem building_delete_restricted (db : DB) (bid : Nat)
    (h : ∃ d ∈ db.devices, d.building = bid) :
    deleteBuilding db bid = Except.error DBError.ConstraintViolation := by
  obtain ⟨d, hd, hb⟩ := h
  simp only [deleteBuilding]
  split
  case isTrue => rfl
  case isFalse hc =>
    exact absurd
      (by simp only [List.any_eq_true, decide_eq_true_eq]
          exact ⟨d, hd, hb⟩) hc

/-- Witness for C4: deleting building 1, which device `(1, x)` references,
fails. -/
theorem building_delete_restricted_witness :
    deleteBuilding dbDevices 1 = Except.error DBError.ConstraintViolation :=
  building_delete_restricted dbDevices 1
    ⟨⟨1, 101, 1, "x", none, none⟩, by decide, by decide⟩

/-- C7: inserting a UserGroup duplicating an existing `(user, group)` pair
fails with `ConstraintViolation`; a row for the same user under a fresh
group (both foreign keys existing) succeeds and is stored. -/
theorem usergroup_pair_unique (db : DB) (ug : UserGroup) :
    ((∃ x ∈ db.user_groups, x.user = ug.user ∧ x.group = ug.group) →
      insertUserGroup db ug = Except.error DBError.ConstraintViolation) ∧
    ((∃ v ∈ db.users, v.id = ug.user) →
      (∃ g0 ∈ db.groups, g0.id = ug.group) →
      (∀ x ∈ db.user_groups, x.user = ug.user → x.group ≠ ug.group) →
      ∃ db', insertUserGroup db ug = Except.ok db' ∧
        ∃ x ∈ db'.user_groups, x.user = ug.user ∧ x.group = ug.group) := by
  constructor
  · rintro ⟨x, hx, hu, hg⟩
    simp only [insertUserGroup]
    split
    case isTrue hc =>
      exact absurd
        (by simp only [List.any_eq_true, decide_eq_true_eq]
            exact ⟨x, hx, hu, hg⟩) hc.2.2
    case isFalse => rfl
  · rintro ⟨v, hv, hvid⟩ ⟨g0, hg0, hgid⟩ hpair
    simp only [insertUserGroup]
    split
    case isTrue =>
      exact ⟨_, rfl, _, List.mem_cons_self _ _, rfl, rfl⟩
    case isFalse hc =>
      exfalso
      apply hc
      refine ⟨?_, ?_, ?_⟩
      · simp only [List.any_eq_true, decide_eq_true_eq]
        exact ⟨v, hv, hvid⟩
      · simp only [List.any_eq_true, decide_eq_true_eq]
        exact ⟨g0, hg0, hgid⟩
      · simp only [List.any_eq_true, decide_eq_true_eq, not_exists]
        rintro x ⟨hx, hu, hg⟩
        exact hpair x hx hu hg

/-- Witness for C7: with membership `(1, 1)` stored, inserting `(1, 1)`
again fails while inserting `(1, 2)` succeeds. -/
theorem usergroup_pair_unique_witness :
    insertUserGroup dbGroups ugDup = Except.error DBError.ConstraintViolation ∧
    ∃ db', insertUserGroup dbGroups ugNew = Except.ok db' ∧
      ∃ x ∈ db'.user_groups, x.user = ugNew.user ∧ x.group = ugNew.group :=
  ⟨(usergroup_pair_unique dbGroups ugDup).1 ⟨⟨1, 1, 1⟩, by decide, by decide⟩,
   (usergroup_pair_unique dbGroups ugNew).2
      ⟨uAStored, by decide, by decide⟩ ⟨⟨2, "g2"⟩, by decide, by decide⟩
      (by decide)⟩

/-- C5: `Notification.user` is `on_delete=SET_NULL`: deleting a User
always succeeds, deletes no Notification row, nulls the `user` reference
of the notifications that pointed at the deleted User (all other fields
unchanged — `{ n with user := none }` keeps them), and leaves the other
notifications untouched. -/
theorem user_delete_nulls_notifications (db : DB) (uid : Nat) :
    (∃ db', applyOp (Op.deleteUser uid) db = Except.ok db') ∧
    (deleteUser db uid).notifications.length = db.notifications.length ∧
    (∀ n ∈ db.notifications, n.user = some uid →
      { n with user := none } ∈ (deleteUser db uid).notifications) ∧
    (∀ n ∈ db.notifications, n.user ≠ some uid →
      n ∈ (deleteUser db uid).notifications) := by
  refine ⟨⟨deleteUser db uid, rfl⟩, ?_, ?_, ?_⟩
  · simp [deleteUser]
  · intro n hn hu
    simp only [deleteUser, List.mem_map]
    exact ⟨n, hn, by simp [hu]⟩
  · intro n hn hu
    simp only [deleteUser, List.mem_map]
    exact ⟨n, hn, by simp [hu]⟩

/-- Witness for C5: deleting user 1 from `dbFull` nulls notification 1's
user reference and keeps notification 2 as it is. -/
theorem user_delete_nulls_notifications_witness :
    (∃ db', applyOp (Op.deleteUser 1) dbFull = Except.ok db') ∧
    ({ (⟨1, some 1, none, "t1", "m1", 0⟩ : Notification) with user := none }
        ∈ (deleteUser dbFull 1).notifications) ∧
    (⟨2, none, some 1, "t2", "m2", 0⟩ : Notification)
        ∈ (deleteUser dbFull 1).notifications :=
  ⟨(user_delete_nulls_notifications dbFull 1).1,
   (user_delete_nulls_notifications dbFull 1).2.2.1
      ⟨1, some 1, none, "t1", "m1", 0⟩ (by decide) (by decide),
   (user_delete_nulls_notifications dbFull 1).2.2.2
      ⟨2, none, some 1, "t2", "m2", 0⟩ (by decide) (by decide)⟩

/-- C6: `History.user` is `on_delete=CASCADE`: deleting a User always
succeeds, removes every History row whose `user` points at the deleted
User, and keeps every other History row. -/
theorem user_delete_cascades_history (db : DB) (uid : Nat) :
    (∃ db', applyOp (Op.deleteUser uid) db = Except.ok db') ∧
    (∀ h ∈ (deleteUser db uid).history, h.user ≠ uid) ∧
    (∀ h ∈ db.history, h.user ≠ uid → h ∈ (deleteUser db uid).history) := by
  refine ⟨⟨deleteUser db uid, rfl⟩, ?_, ?_⟩
  · intro h hh
    simp only [deleteUser, List.mem_filter, decide_eq_true_eq] at hh
    exact hh.2
  · intro h hh hu
    simp only [deleteUser, List.mem_filter, decide_eq_true_eq]
    exact ⟨hh, hu⟩

/-- Witness for C6: deleting user 1 from `dbFull` keeps the history row of
user 2 and every surviving row references a user other than 1. -/
theorem user_delete_cascades_history_witness :
    (∃ db', applyOp (Op.deleteUser 1) dbFull = Except.ok db') ∧
    (⟨2, "users", 2, "update", 2, none, 0⟩ : History)
        ∈ (deleteUser dbFull 1).history ∧
    (⟨2, "users", 2, "update", 2, none, 0⟩ : History).user ≠ 1 :=
  ⟨(user_delete_cascades_history dbFull 1).1,
   (user_delete_cascades_history dbFull 1).2.2
      ⟨2, "users", 2, "update", 2, none, 0⟩ (by decide) (by decide),
   (user_delete_cascades_history dbFull 1).2.1
      ⟨2, "users", 2, "update", 2, none, 0⟩ (by decide)⟩

/-- C10: all of `EmailVerificationToken.user`, `UserSession.user`,
`UserGroup.user`, `TicketEntry.user` and `TicketMiscEntry.user` are
`on_delete=CASCADE`: after deleting a User no row of any of these five
tables references it. -/
theorem user_delete_cascades_dependents (db : DB) (uid : Nat) :
    (∀ t ∈ (deleteUser db uid).email_verification_tokens, t.user ≠ uid) ∧
    (∀ s ∈ (deleteUser db uid).user_sessions, s.user ≠ uid) ∧
    (∀ x ∈ (deleteUser db uid).user_groups, x.user ≠ uid) ∧
    (∀ e ∈ (deleteUser db uid).ticket_entries, e.user ≠ uid) ∧
    (∀ m ∈ (deleteUser db uid).ticket_misc_entries, m.user ≠ uid) := by
  refine ⟨?_, ?_, ?_, ?_, ?_⟩ <;>
    · intro r hr
      simp only [deleteUser, List.mem_filter, decide_eq_true_eq] at hr
      exact hr.2

/-- Witness for C10: in `dbFull` after deleting user 1, the surviving
rows of user 2 do not reference user 1. -/
theorem user_delete_cascades_dependents_witness :
    (⟨2, 2, "tok2", 0, 9⟩ : EmailVerificationToken).user ≠ 1 ∧
    (⟨2, 2, "web", "sess2", 0, 9, 0, true, none, none⟩ : UserSession).user ≠ 1 ∧
    (⟨2, 2, 1⟩ : UserGroup).user ≠ 1 ∧
    (⟨2, 2, 1, "job2", 0, 0, none, none, none, none, none, false, 0, 0⟩ :
        TicketEntry).user ≠ 1 ∧
    (⟨2, 2, "misc2", 0, 0, none, none, none, 0, 0⟩ : TicketMiscEntry).user ≠ 1 :=
  ⟨(user_delete_cascades_dependents dbFull 1).1 _ (by decide),
   (user_delete_cascades_dependents dbFull 1).2.1 _ (by decide),
   (user_delete_cascades_dependents dbFull 1).2.2.1 _ (by decide),
   (user_delete_cascades_dependents dbFull 1).2.2.2.1 _ (by decide),
   (user_delete_cascades_dependents dbFull 1).2.2.2.2 _ (by decide)⟩

/-- Refutation of C8 as stated: TicketEntry (a non-User entity) declares
`created_at = DateTimeField(auto_now_add=True)`, so persisting it at time 1
a TicketEntry built by the caller with `created_at = 0` stores `created_at
= 1`: the field is modified before the underlying insert, it is not stored
exactly as set by the caller. -/
theorem nonuser_persist_verbatim_counterexample :
    ∃ db', insertTicketEntry dbTicket 1 entC8 = Except.ok db' ∧
      ∀ e ∈ db'.ticket_entries, e.created_at ≠ entC8.created_at := by
  refine ⟨_, rfl, ?_⟩
  decide

/-- C8 (amended): for every entity type other than User, persist derives
no stored column from other caller-set columns; each column is stored
exactly as the caller set it, except the auto-assigned `AutoField` primary
key and the columns declared `auto_now_add` / `auto_now`, which are set to
the write time. -/
theorem nonuser_persist_frame :
    (∀ (now : Nat) (t : EmailVerificationToken),
      (evtPreInsert now t).id = t.id ∧ (evtPreInsert now t).user = t.user ∧
      (evtPreInsert now t).token = t.token ∧
      (evtPreInsert now t).expires_at = t.expires_at ∧
      (evtPreInsert now t).created_at = now) ∧
    (∀ (now : Nat) (s : UserSession),
      (sessionPreInsert now s).id = s.id ∧
      (sessionPreInsert now s).user = s.user ∧
      (sessionPreInsert now s).login_origin = s.login_origin ∧
      (sessionPreInsert now s).token = s.token ∧
      (sessionPreInsert now s).expires_at = s.expires_at ∧
      (sessionPreInsert now s).is_active = s.is_active ∧
      (sessionPreInsert now s).device_info = s.device_info ∧
      (sessionPreInsert now s).ip_address = s.ip_address ∧
      (sessionPreInsert now s).issued_at = now ∧
      (sessionPreInsert now s).last_accessed_at = now) ∧
    (∀ (now : Nat) (a : LoginAttempt),
      (loginAttemptPreInsert now a).id = a.id ∧
      (loginAttemptPreInsert now a).user = a.user ∧
      (loginAttemptPreInsert now a).email = a.email ∧
      (loginAttemptPreInsert now a).ip_address = a.ip_address ∧
      (loginAttemptPreInsert now a).login_origin = a.login_origin ∧
      (loginAttemptPreInsert now a).success = a.success ∧
      (loginAttemptPreInsert now a).attempt_time = now) ∧
    (∀ (now : Nat) (t : Ticket),
      (ticketPreInsert now t).id = t.id ∧
      (ticketPreInsert now t).ticket_number = t.ticket_number ∧
      (ticketPreInsert now t).created_at = now) ∧
    (∀ (now : Nat) (e : TicketEntry),
      (ticketEntryPreInsert now e).id = e.id ∧
      (ticketEntryPreInsert now e).user = e.user ∧
      (ticketEntryPreInsert now e).ticket = e.ticket ∧
      (ticketEntryPreInsert now e).job_name = e.job_name ∧
      (ticketEntryPreInsert now e).job_end_time = e.job_end_time ∧
      (ticketEntryPreInsert now e).job_duration = e.job_duration ∧
      (ticketEntryPreInsert now e).job_materials_needed = e.job_materials_needed ∧
      (ticketEntryPreInsert now e).job_access_needed = e.job_access_needed ∧
      (ticketEntryPreInsert now e).job_programming_changes = e.job_programming_changes ∧
      (ticketEntryPreInsert now e).job_followup_required = e.job_followup_required ∧
      (ticketEntryPreInsert now e).job_start_date = now ∧
      (ticketEntryPreInsert now e).job_start_time = now ∧
      (ticketEntryPreInsert now e).created_at = now ∧
      (ticketEntryPreInsert now e).updated_at = now) ∧
    (∀ (now : Nat) (m : TicketMiscEntry),
      (ticketMiscEntryPreInsert now m).id = m.id ∧
      (ticketMiscEntryPreInsert now m).user = m.user ∧
      (ticketMiscEntryPreInsert now m).misc_name = m.misc_name ∧
      (ticketMiscEntryPreInsert now m).misc_end_time = m.misc_end_time ∧
      (ticketMiscEntryPreInsert now m).misc_duration = m.misc_duration ∧
      (ticketMiscEntryPreInsert now m).misc_details = m.misc_details ∧
      (ticketMiscEntryPreInsert now m).misc_start_date = now ∧
      (ticketMiscEntryPreInsert now m).misc_start_time = now ∧
      (ticketMiscEntryPreInsert now m).created_at = now ∧
      (ticketMiscEntryPreInsert now m).updated_at = now) ∧
    (∀ (now : Nat) (n : Notification),
      (notificationPreInsert now n).id = n.id ∧
      (notificationPreInsert now n).user = n.user ∧
      (notificationPreInsert now n).group = n.group ∧
      (notificationPreInsert now n).title = n.title ∧
      (notificationPreInsert now n).message = n.message ∧
      (notificationPreInsert now n).created_at = now) ∧
    (∀ (now : Nat) (a : Alert),
      (alertPreInsert now a).id = a.id ∧
      (alertPreInsert now a).user = a.user ∧
      (alertPreInsert now a).group = a.group ∧
      (alertPreInsert now a).entry = a.entry ∧
      (alertPreInsert now a).alert_type = a.alert_type ∧
      (alertPreInsert now a).severity = a.severity ∧
      (alertPreInsert now a).message = a.message ∧
      (alertPreInsert now a).is_resolved = a.is_resolved ∧
      (alertPreInsert now a).resolved_at = a.resolved_at ∧
      (alertPreInsert now a).created_at = now) ∧
    (∀ (now : Nat) (h : History),
      (historyPreInsert now h).id = h.id ∧
      (historyPreInsert now h).table_name = h.table_name ∧
      (historyPreInsert now h).record_id = h.record_id ∧
      (historyPreInsert now h).action = h.action ∧
      (historyPreInsert now h).user = h.user ∧
      (historyPreInsert now h).changes = h.changes ∧
      (historyPreInsert now h).created_at = now) ∧
    (∀ db db1 g, insertGroup db g = Except.ok db1 →
      ∃ g1 ∈ db1.groups, g1.group_name = g.group_name) ∧
    (∀ db db1 ug, insertUserGroup db ug = Except.ok db1 →
      ∃ x ∈ db1.user_groups, x.user = ug.user ∧ x.group = ug.group) ∧
    (∀ db db1 b, insertBuilding db b = Except.ok db1 →
      ∃ b1 ∈ db1.buildings, b1.building_uuid = b.building_uuid ∧
        b1.building_name = b.building_name ∧ b1.description = b.description) ∧
    (∀ db db1 d, insertDevice db d = Except.ok db1 →
      ∃ d1 ∈ db1.devices, d1.device_uuid = d.device_uuid ∧
        d1.building = d.building ∧ d1.device_name = d.device_name ∧
        d1.device_type = d.device_type ∧ d1.description = d.description) ∧
    (∀ db db1 ed, insertTicketEntryDevice db ed = Except.ok db1 →
      ∃ x ∈ db1.ticket_entry_devices, x.entry = ed.entry ∧
        x.device = ed.device) := by
  refine ⟨?_, ?_, ?_, ?_, ?_, ?_, ?_, ?_, ?_, ?_, ?_, ?_, ?_, ?_⟩
  · exact fun now t => ⟨rfl, rfl, rfl, rfl, rfl⟩
  · exact fun now s => ⟨rfl, rfl, rfl, rfl, rfl, rfl, rfl, rfl, rfl, rfl⟩
  · exact fun now a => ⟨rfl, rfl, rfl, rfl, rfl, rfl, rfl⟩
  · exact fun now t => ⟨rfl, rfl, rfl⟩
  · exact fun now e =>
      ⟨rfl, rfl, rfl, rfl, rfl, rfl, rfl, rfl, rfl, rfl, rfl, rfl, rfl, rfl⟩
  · exact fun now m => ⟨rfl, rfl, rfl, rfl, rfl, rfl, rfl, rfl, rfl, rfl⟩
  · exact fun now n => ⟨rfl, rfl, rfl, rfl, rfl, rfl⟩
  · exact fun now a => ⟨rfl, rfl, rfl, rfl, rfl, rfl, rfl, rfl, rfl, rfl⟩
  · exact fun now h => ⟨rfl, rfl, rfl, rfl, rfl, rfl, rfl⟩
  · intro db db1 g h
    simp only [insertGroup] at h
    split at h
    case isTrue =>
      simp only [Except.ok.injEq] at h
      subst h
      exact ⟨_, List.mem_cons_self _ _, rfl⟩
    case isFalse => simp at h
  · intro db db1 ug h
    simp only [insertUserGroup] at h
    split at h
    case isTrue =>
      simp only [Except.ok.injEq] at h
      subst h
      exact ⟨_, List.mem_cons_self _ _, rfl, rfl⟩
    case isFalse => simp at h
  · intro db db1 b h
    simp only [insertBuilding] at h
    split at h
    case isTrue =>
      simp only [Except.ok.injEq] at h
      subst h
      exact ⟨_, List.mem_cons_self _ _, rfl, rfl, rfl⟩
    case isFalse => simp at h
  · intro db db1 d h
    simp only [insertDevice] at h
    split at h
    case isTrue =>
      simp only [Except.ok.injEq] at h
      subst h
      exact ⟨_, List.mem_cons_self _ _, rfl, rfl, rfl, rfl, rfl⟩
    case isFalse => simp at h
  · intro db db1 ed h
    simp only [insertTicketEntryDevice] at h
    split at h
    case isTrue =>
      simp only [Except.ok.injEq] at h
      subst h
      exact ⟨_, List.mem_cons_self _ _, rfl, rfl⟩
    case isFalse => simp at h

/-- Witness for C8 (amended): the TicketEntry transform at time 1 keeps
`entC8`'s caller-set columns, and inserting a group into the empty
database stores its name. -/
theorem nonuser_persist_frame_witness :
    ((ticketEntryPreInsert 1 entC8).user = entC8.user ∧
      (ticketEntryPreInsert 1 entC8).created_at = 1) ∧
    ∃ g1 ∈ (insertGroup emptyDB ⟨0, "g1"⟩).toOption.getD emptyDB |>.groups,
      g1.group_name = "g1" := by
  constructor
  · exact ⟨(nonuser_persist_frame.2.2.2.2.1 1 entC8).2.1,
      (nonuser_persist_frame.2.2.2.2.1 1 entC8).2.2.2.2.2.2.2.2.2.2.2.2.1⟩
  · exact nonuser_persist_frame.2.2.2.2.2.2.2.2.2.1 emptyDB _ ⟨0, "g1"⟩ rfl

/-! Frame lemmas: no fallible operation other than the LoginAttempt
insert touches the `login_attempts` table. -/

/-- Lemma: `saveUser` leaves `login_attempts` unchanged. -/
theorem saveUser_login_frame {db db' : DB} {now : Nat} {u : User}
    (h : saveUser db now u = Except.ok db') :
    db'.login_attempts = db.login_attempts := by
  simp only [saveUser] at h
  split at h <;> split at h <;>
    first
      | (simp only [Except.ok.injEq] at h; subst h; rfl)
      | simp at h

/-- Lemma: `insertEVT` leaves `login_attempts` unchanged. -/
theorem insertEVT_login_frame {db db' : DB} {now : Nat}
    {t : EmailVerificationToken} (h : insertEVT db now t = Except.ok db') :
    db'.login_attempts = db.login_attempts := by
  simp only [insertEVT] at h
  split at h
  case isTrue => simp only [Except.ok.injEq] at h; subst h; rfl
  case isFalse => simp at h

/-- Lemma: `insertSession` leaves `login_attempts` unchanged. -/
theorem insertSession_login_frame {db db' : DB} {now : Nat}
    {s : UserSession} (h : insertSession db now s = Except.ok db') :
    db'.login_attempts = db.login_attempts := by
  simp only [insertSession] at h
  split at h
  case isTrue => simp only [Except.ok.injEq] at h; subst h; rfl
  case isFalse => simp at h

/-- Lemma: `insertGroup` leaves `login_attempts` unchanged. -/
theorem insertGroup_login_frame {db db' : DB} {g : Group}
    (h : insertGroup db g = Except.ok db') :
    db'.login_attempts = db.login_attempts := by
  simp only [insertGroup] at h
  split at h
  case isTrue => simp only [Except.ok.injEq] at h; subst h; rfl
  case isFalse => simp at h

/-- Lemma: `insertUserGroup` leaves `login_attempts` unchanged. -/
theorem insertUserGroup_login_frame {db db' : DB} {ug : UserGroup}
    (h : insertUserGroup db ug = Except.ok db') :
    db'.login_attempts = db.login_attempts := by
  simp only [insertUserGroup] at h
  split at h
  case isTrue => simp only [Except.ok.injEq] at h; subst h; rfl
  case isFalse => simp at h

/-- Lemma: `insertBuilding` leaves `login_attempts` unchanged. -/
theorem insertBuilding_login_frame {db db' : DB} {b : Building}
    (h : insertBuilding db b = Except.ok db') :
    db'.login_attempts = db.login_attempts := by
  simp only [insertBuilding] at h
  split at h
  case isTrue => simp only [Except.ok.injEq] at h; subst h; rfl
  case isFalse => simp at h

/-- Lemma: `insertDevice` leaves `login_attempts` unchanged. -/
theorem insertDevice_login_frame {db db' : DB} {d : Device}
    (h : insertDevice db d = Except.ok db') :
    db'.login_attempts = db.login_attempts := by
  simp only [insertDevice] at h
  split at h
  case isTrue => simp only [Except.ok.injEq] at h; subst h; rfl
  case isFalse => simp at h

/-- Lemma: `insertTicket` leaves `login_attempts` unchanged. -/
theorem insertTicket_login_frame {db db' : DB} {now : Nat} {t : Ticket}
    (h : insertTicket db now t = Except.ok db') :
    db'.login_attempts = db.login_attempts := by
  simp only [insertTicket] at h
  split at h
  case isTrue => simp only [Except.ok.injEq] at h; subst h; rfl
  case isFalse => simp at h

/-- Lemma: `insertTicketEntry` leaves `login_attempts` unchanged. -/
theorem insertTicketEntry_login_frame {db db' : DB} {now : Nat}
    {e : TicketEntry} (h : insertTicketEntry db now e = Except.ok db') :
    db'.login_attempts = db.login_attempts := by
  simp only [insertTicketEntry] at h
  split at h
  case isTrue => simp only [Except.ok.injEq] at h; subst h; rfl
  case isFalse => simp at h

/-- Lemma: `insertTicketMiscEntry` leaves `login_attempts` unchanged. -/
theorem insertTicketMiscEntry_login_frame {db db' : DB} {now : Nat}
    {m : TicketMiscEntry} (h : insertTicketMiscEntry db now m = Except.ok db') :
    db'.login_attempts = db.login_attempts := by
  simp only [insertTicketMiscEntry] at h
  split at h
  case isTrue => simp only [Except.ok.injEq] at h; subst h; rfl
  case isFalse => simp at h

/-- Lemma: `insertTicketEntryDevice` leaves `login_attempts` unchanged. -/
theorem insertTicketEntryDevice_login_frame {db db' : DB}
    {ed : TicketEntryDevice} (h : insertTicketEntryDevice db ed = Except.ok db') :
    db'.login_attempts = db.login_attempts := by
  simp only [insertTicketEntryDevice] at h
  split at h
  case isTrue => simp only [Except.ok.injEq] at h; subst h; rfl
  case isFalse => simp at h

/-- Lemma: `insertNotification` leaves `login_attempts` unchanged. -/
theorem insertNotification_login_frame {db db' : DB} {now : Nat}
    {n : Notification} (h : insertNotification db now n = Except.ok db') :
    db'.login_attempts = db.login_attempts := by
  simp only [insertNotification] at h
  split at h
  case isTrue => simp only [Except.ok.injEq] at h; subst h; rfl
  case isFalse => simp at h

/-- Lemma: `insertAlert` leaves `login_attempts` unchanged. -/
theorem insertAlert_login_frame {db db' : DB} {now : Nat} {a : Alert}
    (h : insertAlert db now a = Except.ok db') :
    db'.login_attempts = db.login_attempts := by
  simp only [insertAlert] at h
  split at h
  case isTrue => simp only [Except.ok.injEq] at h; subst h; rfl
  case isFalse => simp at h

/-- Lemma: `insertHistory` leaves `login_attempts` unchanged. -/
theorem insertHistory_login_frame {db db' : DB} {now : Nat} {h0 : History}
    (h : insertHistory db now h0 = Except.ok db') :
    db'.login_attempts = db.login_attempts := by
  simp only [insertHistory] at h
  split at h
  case isTrue => simp only [Except.ok.injEq] at h; subst h; rfl
  case isFalse => simp at h

/-- Lemma: `deleteBuilding` leaves `login_attempts` unchanged. -/
theorem deleteBuilding_login_frame {db db' : DB} {bid : Nat}
    (h : deleteBuilding db bid = Except.ok db') :
    db'.login_attempts = db.login_attempts := by
  simp only [deleteBuilding] at h
  split at h
  case isTrue => simp at h
  case isFalse => simp only [Except.ok.injEq] at h; subst h; rfl

/-- Lemma: `deleteDevice` leaves `login_attempts` unchanged. -/
theorem deleteDevice_login_frame {db db' : DB} {did : Nat}
    (h : deleteDevice db did = Except.ok db') :
    db'.login_attempts = db.login_attempts := by
  simp only [deleteDevice] at h
  split at h
  case isTrue => simp at h
  case isFalse => simp only [Except.ok.injEq] at h; subst h; rfl

/-- C9: LoginAttempt rows are append-only under every operation this
schema layer induces: after any successful operation other than a
LoginAttempt insertion, every stored LoginAttempt row is a pre-existing
row unchanged — except that `deleteUser` (the `SET_NULL` edge) may have
nulled the `user` reference of rows that pointed at the deleted User. -/
theorem login_attempts_append_only (op : Op) (db db' : DB)
    (h : applyOp op db = Except.ok db')
    (hins : ∀ now a, op ≠ Op.insertLoginAttempt now a) :
    ∀ la ∈ db'.login_attempts,
      la ∈ db.login_attempts ∨
      ∃ la0 ∈ db.login_attempts, ∃ uid, op = Op.deleteUser uid ∧
        la0.user = some uid ∧ la = { la0 with user := none } := by
  intro la hla
  cases op with
  | saveUser now u =>
      simp only [applyOp] at h
      rw [saveUser_login_frame h] at hla
      exact Or.inl hla
  | insertEVT now t =>
      simp only [applyOp] at h
      rw [insertEVT_login_frame h] at hla
      exact Or.inl hla
  | insertSession now s =>
      simp only [applyOp] at h
      rw [insertSession_login_frame h] at hla
      exact Or.inl hla
  | insertLoginAttempt now a =>
      exact absurd rfl (hins now a)
  | insertGroup g =>
      simp only [applyOp] at h
      rw [insertGroup_login_frame h] at hla
      exact Or.inl hla
  | insertUserGroup ug =>
      simp only [applyOp] at h
      rw [insertUserGroup_login_frame h] at hla
      exact Or.inl hla
  | insertBuilding b =>
      simp only [applyOp] at h
      rw [insertBuilding_login_frame h] at hla
      exact Or.inl hla
  | insertDevice d =>
      simp only [applyOp] at h
      rw [insertDevice_login_frame h] at hla
      exact Or.inl hla
  | insertTicket now t =>
      simp only [applyOp] at h
      rw [insertTicket_login_frame h] at hla
      exact Or.inl hla
  | insertTicketEntry now e =>
      simp only [applyOp] at h
      rw [insertTicketEntry_login_frame h] at hla
      exact Or.inl hla
  | insertTicketMiscEntry now m =>
      simp only [applyOp] at h
      rw [insertTicketMiscEntry_login_frame h] at hla
      exact Or.inl hla
  | insertTicketEntryDevice ed =>
      simp only [applyOp] at h
      rw [insertTicketEntryDevice_login_frame h] at hla
      exact Or.inl hla
  | insertNotification now n =>
      simp only [applyOp] at h
      rw [insertNotification_login_frame h] at hla
      exact Or.inl hla
  | insertAlert now a =>
      simp only [applyOp] at h
      rw [insertAlert_login_frame h] at hla
      exact Or.inl hla
  | insertHistory now h0 =>
      simp only [applyOp] at h
      rw [insertHistory_login_frame h] at hla
      exact Or.inl hla
  | deleteUser uid =>
      simp only [applyOp, Except.ok.injEq] at h
      subst h
      simp only [deleteUser, List.mem_map] at hla
      obtain ⟨la0, hmem, heq⟩ := hla
      by_cases hu : la0.user = some uid
      · right
        refine ⟨la0, hmem, uid, rfl, hu, ?_⟩
        rw [← heq]
        simp [hu]
      · left
        rw [← heq]
        simpa [hu] using hmem
  | deleteGroup gid =>
      simp only [applyOp, Except.ok.injEq] at h
      subst h
      exact Or.inl hla
  | deleteBuilding bid =>
      simp only [applyOp] at h
      rw [deleteBuilding_login_frame h] at hla
      exact Or.inl hla
  | deleteDevice did =>
      simp only [applyOp] at h
      rw [deleteDevice_login_frame h] at hla
      exact Or.inl hla
  | deleteTicket tid =>
      simp only [applyOp, Except.ok.injEq] at h
      subst h
      exact Or.inl hla
  | deleteTicketEntry eid =>
      simp only [applyOp, Except.ok.injEq] at h
      subst h
      exact Or.inl hla
  | deleteEVT tid =>
      simp only [applyOp, Except.ok.injEq] at h
      subst h
      exact Or.inl hla
  | deleteSession sid =>
      simp only [applyOp, Except.ok.injEq] at h
      subst h
      exact Or.inl hla
  | deleteLoginAttempt aid =>
      simp only [applyOp, Except.ok.injEq] at h
      subst h
      exact Or.inl (List.mem_of_mem_filter hla)
  | deleteUserGroup xid =>
      simp only [applyOp, Except.ok.injEq] at h
      subst h
      exact Or.inl hla
  | deleteTicketMiscEntry mid =>
      simp only [applyOp, Except.ok.injEq] at h
      subst h
      exact Or.inl hla
  | deleteTicketEntryDevice xid =>
      simp only [applyOp, Except.ok.injEq] at h
      subst h
      exact Or.inl hla
  | deleteNotification nid =>
      simp only [applyOp, Except.ok.injEq] at h
      subst h
      exact Or.inl hla
  | deleteAlert aid =>
      simp only [applyOp, Except.ok.injEq] at h
      subst h
      exact Or.inl hla
  | deleteHistory hid =>
      simp only [applyOp, Except.ok.injEq] at h
      subst h
      exact Or.inl hla

/-- Witness for C9: deleting user 1 from `dbFull` turns its LoginAttempt
row into the same row with the user reference nulled. -/
theorem login_attempts_append_only_witness :
    ({ (⟨1, some 1, some "a@x.com", "ip", none, true, 0⟩ : LoginAttempt) with
        user := none } ∈ dbFull.login_attempts) ∨
    ∃ la0 ∈ dbFull.login_attempts, ∃ uid,
      Op.deleteUser 1 = Op.deleteUser uid ∧ la0.user = some uid ∧
      { (⟨1, some 1, some "a@x.com", "ip", none, true, 0⟩ : LoginAttempt) with
        user := none } = { la0 with user := none } :=
  login_attempts_append_only (Op.deleteUser 1) dbFull (deleteUser dbFull 1)
    rfl (fun now a hc => Op.noConfusion hc) _ (by decide)

end Schema
